import Mathlib

/-!
# Verification of the websocket connection-management server

Shallow embedding of the Go sources (`manager.go`, `client.go`, `event.go`,
`main.go`) of the websocket server: a `Manager` registry of connected
clients, OTP-based admission (`serveWS`), event routing (`reouteEvent`),
and the per-connection read and write loops.

Conventions of the embedding:
* A `Client` is identified by its id (Go uses pointer identity as the
  `ClientList` map key).
* The registry (`Manager.clients`, Go `map[*Client]bool`) is a `Finset`.
* Go `time.Duration` values are nanosecond counts modelled as `Nat`.
* Side effects (`log.Println`, `fmt.Println`) are dropped or, where a claim
  is about what gets logged, returned explicitly as data.
* The read and write loops are driven by a finite script of externally
  produced happenings (`ReadItem` / `WriteItem`): each script item is what
  the blocking call (stream read, channel receive, ticker fire) returned.
-/

set_option autoImplicit false

namespace WsServer

/-- A websocket client handle.  In Go a `*Client`: identity is pointer
equality, modelled by the id. -/
structure Client where
  id : Nat
deriving DecidableEq

/-- `event.go`: `Event` is the wire envelope `{type, payload}`, with
`Payload json.RawMessage` (raw, not-yet-decoded bytes) modelled as a
`String`. -/
structure Event where
  type : String
  payload : String
deriving DecidableEq

/-- `event.go`: `SendMessageEvent` is the payload schema for the
`send_message` event. -/
structure SendMessageEvent where
  message : String
  from_ : String
deriving DecidableEq

/-- `event.go`: `EventSendMessage = "send_message"`. -/
def EventSendMessage : String := "send_message"

/-- Errors a handler or the router can report (Go `error` values).
`eventNotSupported` is `ErrEventNotSupported`; `handlerErr` stands for any
other error a handler returns. -/
inductive WSErr where
  | eventNotSupported
  | handlerErr (msg : String)
deriving DecidableEq

/-- `event.go`: `EventHandler func(event Event, c *Client) error`; `none`
is Go `nil` (success). -/
abbrev EventHandler : Type := Event → Client → Option WSErr

/-- The token store contents: key ↦ creation time.  Go `RetentionMap` is
`map[string]OTP` with `OTP{Key, Created}`; times are modelled as `Nat`. -/
abbrev RetentionMap : Type := List (String × Nat)

/-- Whether a key is currently present in the store. -/
def RetentionMap.hasKey (m : RetentionMap) (k : String) : Bool :=
  (List.lookup k m).isSome

/-- Modelled from the spec: the Token Store implementation (`otp.go`,
`RetentionMap.NewOTP`) is not under `src/`.  Per spec §4.1, `issue()`
"generates a fresh unique key, records creation time, inserts into the
map"; the caller supplies the fresh key and the current time. -/
def NewOTP (m : RetentionMap) (key : String) (now : Nat) : RetentionMap :=
  (key, now) :: m

/-- Modelled from the spec: the Token Store implementation (`otp.go`,
`RetentionMap.VerifyOTP`) is not under `src/`.  Per spec §4.1,
`verify(key)` "looks up key; if present, deletes it (single-use) and
returns true; if absent or never issued, returns false". -/
def VerifyOTP (m : RetentionMap) (key : String) : RetentionMap × Bool :=
  if m.hasKey key then
    (List.filter (fun p => p.1 != key) m, true)
  else
    (m, false)

/-- Modelled from the spec: the background sweep (`otp.go`) is not under
`src/`.  Per spec §4.1 it "removes all entries whose age exceeds the
retention window"; one sweep tick at time `now`. -/
def sweepTick (m : RetentionMap) (now retention : Nat) : RetentionMap :=
  List.filter (fun p => now ≤ p.2 + retention) m

/-- `manager.go`: the `Manager` struct — the registry of clients, the
event-handler table, and the OTP store.  The `sync.RWMutex` disciplines
concurrent access and has no sequential content. -/
structure Manager where
  clients : Finset Client
  handlers : String → Option EventHandler
  otps : RetentionMap

/-- `manager.go` `setupEventHandlers`: the registered `send_message`
handler — `func(e Event, c *Client) error { fmt.Println(e); return nil }`.
It prints the envelope and returns `nil`; the payload is not decoded. -/
def sendMessageHandler : EventHandler :=
  fun _e _c => none

/-- `manager.go` `setupEventHandlers`: adds the `send_message` handler to
the handler table (`m.handlers[EventSendMessage] = ...`). -/
def setupEventHandlers (hs : String → Option EventHandler) :
    String → Option EventHandler :=
  fun t => if t = EventSendMessage then some sendMessageHandler else hs t

/-- `manager.go` `NewManager`: empty client set, handler table populated
by `setupEventHandlers`, fresh retention map. -/
def NewManager : Manager :=
  { clients := ∅
    handlers := setupEventHandlers (fun _ => none)
    otps := [] }

/-- `manager.go` `checkOrigin` (token-authenticated snapshot): switches on
the `Origin` header and returns `true` in the `http://localhost:8080` case
and `true` in the default case as well. -/
def checkOrigin (origin : String) : Bool :=
  match origin with
  | "http://localhost:8080" => true
  | _ => true

/-- The `websocket.Upgrader` rejects the handshake exactly when its
`CheckOrigin` callback (wired to `checkOrigin`) returns false. -/
def websocketUpgraderRejectsOrigin (origin : String) : Bool :=
  !checkOrigin origin

/-- `manager.go` `reouteEvent` (sic): look up the handler for
`event.Type`; invoke it and return its error, or `ErrEventNotSupported`
when no handler is registered. -/
def reouteEvent (m : Manager) (event : Event) (c : Client) : Option WSErr :=
  match m.handlers event.type with
  | some handler =>
    match handler event c with
    | some err => some err
    | none => none
  | none => some WSErr.eventNotSupported

/-- `manager.go` `addClient`: under the lock, `m.clients[client] = true`. -/
def addClient (m : Manager) (client : Client) : Manager :=
  { m with clients := insert client m.clients }

/-- `manager.go` `removeClient`: under the lock, if the client is present,
close its connection and delete it; otherwise do nothing.  The returned
`Bool` records whether `client.connection.Close()` was called. -/
def removeClient (m : Manager) (client : Client) : Manager × Bool :=
  if client ∈ m.clients then
    ({ m with clients := m.clients.erase client }, true)
  else
    (m, false)

/-- Outcome of one `serveWS` admission attempt, as observed by the HTTP
caller: `unauthorized` is a 401 response; `upgradeFailed` is the
upgrader's error path (no status written by `serveWS`); `admitted c` is a
successful upgrade that registered and started client `c`. -/
inductive ServeResult where
  | unauthorized
  | upgradeFailed
  | admitted (c : Client)
deriving DecidableEq

/-- `manager.go` `serveWS` (token-authenticated snapshot): read the `otp`
query parameter; 401 if empty; 401 if `VerifyOTP` fails; then upgrade
(`upgradeOk` is whether `websocketUpgrader.Upgrade` succeeded, and
`newConn` the client built from the fresh connection); on success,
`addClient` and start the two loops. -/
def serveWS (m : Manager) (otp : String) (upgradeOk : Bool)
    (newConn : Client) : ServeResult × Manager :=
  if otp = "" then
    (ServeResult.unauthorized, m)
  else
    let vr := VerifyOTP m.otps otp
    let m1 : Manager := { m with otps := vr.1 }
    if vr.2 = false then
      (ServeResult.unauthorized, m1)
    else if upgradeOk = false then
      (ServeResult.upgradeFailed, m1)
    else
      (ServeResult.admitted newConn, addClient m1 newConn)

/-- Go `time.Second` in nanoseconds (`time.Duration` is an integer
nanosecond count). -/
def timeSecond : Nat := 1000000000

/-- `client.go`: `pongWait = 10 * time.Second`. -/
def pongWait : Nat := 10 * timeSecond

/-- `client.go`: `pingInterval = (pongWait * 9) / 10` — integer
arithmetic, `* 9 / 10` instead of `* 0.9` to avoid decimals. -/
def pingInterval : Nat := (pongWait * 9) / 10

/-- One happening observed by the read loop's blocking
`connection.ReadMessage()` call: a read error, or a payload whose
one-time decode into an `Event` gave `decoded`. -/
inductive ReadItem where
  | readError
  | msg (decoded : Option Event)
deriving DecidableEq

/-- Why the read loop exited: a transport read error, a JSON decode
failure, or the end of the driving script (the loop itself is infinite
and would block for the next message). -/
inductive RExit where
  | transportErr
  | decodeFail
  | endOfScript
deriving DecidableEq

/-- `client.go` `readMessages`, loop body: on read error break; on decode
failure (`json.Unmarshal` into `Event` fails) log and break; on success
dispatch via `reouteEvent`, log any error, and continue.  Returns the
dispatch results in order (the per-message log) and the exit reason. -/
def readLoopAux (m : Manager) (c : Client) :
    List ReadItem → List (Option WSErr) × RExit
  | [] => ([], RExit.endOfScript)
  | ReadItem.readError :: _ => ([], RExit.transportErr)
  | ReadItem.msg none :: _ => ([], RExit.decodeFail)
  | ReadItem.msg (some e) :: rest =>
    let r := readLoopAux m c rest
    (reouteEvent m e c :: r.1, r.2)

/-- `client.go` `readMessages`: set the read deadline (`deadlineOk` is
whether `SetReadDeadline` succeeded — on failure the function returns
early), run the loop, and in every case run the deferred
`c.manager.removeClient(c)`. -/
def readMessages (m : Manager) (c : Client) (deadlineOk : Bool)
    (items : List ReadItem) : Manager × RExit :=
  if deadlineOk = false then
    ((removeClient m c).1, RExit.endOfScript)
  else
    let r := readLoopAux m c items
    ((removeClient m c).1, r.2)

/-- One happening observed by the write loop's `select`: a mailbox
(`egress`) receive carrying an envelope, with the outcomes of its
`json.Marshal` and of the data-frame `WriteMessage`; the mailbox being
closed; or a ticker fire, with the outcome of the ping `WriteMessage`. -/
inductive WriteItem where
  | mailbox (e : Event) (marshalOk : Bool) (writeOk : Bool)
  | mailboxClosed
  | tick (writeOk : Bool)
deriving DecidableEq

/-- Why the write loop exited. -/
inductive WExit where
  | channelClosed
  | marshalFail
  | pingFail
  | endOfScript
deriving DecidableEq

/-- `client.go` `WriteMessages`, loop body: data-frame write errors are
only logged and the loop continues; a closed mailbox or a marshal error
returns; a failed ping write returns.  Returns the number of script items
fully consumed and the exit reason. -/
def writeLoopAux : List WriteItem → Nat × WExit
  | [] => (0, WExit.endOfScript)
  | WriteItem.mailboxClosed :: _ => (0, WExit.channelClosed)
  | WriteItem.mailbox _e marshalOk _writeOk :: rest =>
    if marshalOk then
      let r := writeLoopAux rest
      (r.1 + 1, r.2)
    else
      (0, WExit.marshalFail)
  | WriteItem.tick writeOk :: rest =>
    if writeOk then
      let r := writeLoopAux rest
      (r.1 + 1, r.2)
    else
      (0, WExit.pingFail)

/-- `client.go` `WriteMessages`: run the loop, and in every case run the
deferred `ticker.Stop(); c.manager.removeClient(c)`. -/
def WriteMessages (m : Manager) (c : Client) (items : List WriteItem) :
    Manager × WExit :=
  let r := writeLoopAux items
  ((removeClient m c).1, r.2)

/-- A necessary condition for Go's `json.Unmarshal` into a struct such as
`SendMessageEvent` to succeed: the raw payload must be a JSON object,
i.e. (with no leading whitespace) start with an opening brace. -/
def jsonObjectLike (s : String) : Bool :=
  String.startsWith s "\x7b"

/-! ## Helper lemmas -/

/-- `removeClient` always leaves the registry equal to the original set
with the client erased (erasing an absent element is the identity). -/
theorem removeClient_fst_clients (m : Manager) (c : Client) :
    ((removeClient m c).1).clients = m.clients.erase c := by
  unfold removeClient
  by_cases h : c ∈ m.clients
  · simp [h]
  · simp [h, Finset.erase_eq_of_not_mem h]

/-- `removeClient` leaves the handler table untouched. -/
theorem removeClient_fst_handlers (m : Manager) (c : Client) :
    ((removeClient m c).1).handlers = m.handlers := by
  unfold removeClient
  by_cases h : c ∈ m.clients <;> simp [h]

/-- The match in `reouteEvent` is the identity on the handler's result. -/
theorem reouteEvent_eq_handler (m : Manager) (e : Event) (c : Client)
    (hdl : EventHandler) (hh : m.handlers e.type = some hdl) :
    reouteEvent m e c = hdl e c := by
  unfold reouteEvent
  rw [hh]
  cases h : hdl e c <;> simp [h]

/-- `NewManager` registers exactly the `send_message` handler. -/
theorem NewManager_handlers (t : String) :
    NewManager.handlers t
      = if t = EventSendMessage then some sendMessageHandler else none := by
  rfl

/-! ## Claim theorems -/

/-- C1: for every client `c` and registry state, the first `removeClient c`
closes the stream exactly when `c` is present and leaves the registry
without `c`; the immediately following second call closes nothing and
changes nothing. -/
theorem removeClient_twice (m : Manager) (c : Client) :
    (removeClient m c).2 = decide (c ∈ m.clients)
    ∧ ((removeClient m c).1).clients = m.clients.erase c
    ∧ removeClient (removeClient m c).1 c = ((removeClient m c).1, false) := by
  refine ⟨?_, removeClient_fst_clients m c, ?_⟩
  · unfold removeClient
    by_cases h : c ∈ m.clients <;> simp [h]
  · unfold removeClient
    by_cases h : c ∈ m.clients <;> simp [h, Finset.not_mem_erase]

/-- C4: dispatch through `reouteEvent` on the program's handler table
(`NewManager`) yields `ErrEventNotSupported` iff no handler is registered
for the event's type, and when a handler is registered its result is
propagated unchanged. -/
theorem reouteEvent_spec (e : Event) (c : Client) (hdl : EventHandler) :
    (reouteEvent NewManager e c = some WSErr.eventNotSupported
        ↔ NewManager.handlers e.type = none)
    ∧ (NewManager.handlers e.type = some hdl →
        reouteEvent NewManager e c = hdl e c) := by
  constructor
  · by_cases h : e.type = EventSendMessage
    · rw [reouteEvent_eq_handler NewManager e c sendMessageHandler
        (by rw [NewManager_handlers, if_pos h])]
      rw [NewManager_handlers, if_pos h]
      simp [sendMessageHandler]
    · unfold reouteEvent
      rw [NewManager_handlers, if_neg h]
      simp
  · intro hh
    exact reouteEvent_eq_handler NewManager e c hdl hh

/-- Witness for C4: a concrete unregistered type yields
`ErrEventNotSupported`, and a concrete `send_message` envelope is routed to
the registered handler with its result propagated unchanged. -/
theorem reouteEvent_spec_witness :
    reouteEvent NewManager { type := "unknown_evt", payload := "" } { id := 0 }
        = some WSErr.eventNotSupported
    ∧ reouteEvent NewManager { type := EventSendMessage, payload := "x" } { id := 1 }
        = sendMessageHandler { type := EventSendMessage, payload := "x" } { id := 1 } :=
  ⟨(reouteEvent_spec { type := "unknown_evt", payload := "" } { id := 0 }
      sendMessageHandler).1.mpr (by rfl),
   (reouteEvent_spec { type := EventSendMessage, payload := "x" } { id := 1 }
      sendMessageHandler).2 (by rfl)⟩

/-- C7: `pongWait` is 10 seconds, and `pingInterval = (pongWait * 9) / 10`
is exactly 9 seconds — exactly 0.9 × `pongWait` (`10 * pingInterval =
9 * pongWait`) and strictly less than `pongWait`. -/
theorem pingInterval_spec :
    pongWait = 10 * timeSecond
    ∧ pingInterval = 9 * timeSecond
    ∧ pingInterval < pongWait
    ∧ 10 * pingInterval = 9 * pongWait := by
  refine ⟨rfl, ?_, ?_, ?_⟩ <;>
    norm_num [pingInterval, pongWait, timeSecond]

/-- Deleting a key from the store removes every entry for it: a later
lookup of that key finds nothing. -/
theorem lookup_filter_self (m : RetentionMap) (k : String) :
    List.lookup k (List.filter (fun p => p.1 != k) m) = none := by
  induction m with
  | nil => rfl
  | cons a t ih =>
    obtain ⟨x, v⟩ := a
    by_cases h : x = k
    · simp [List.filter_cons, h, ih]
    · have hk : (k == x) = false := beq_eq_false_iff_ne.mpr fun e => h e.symm
      simp [List.filter_cons, h, List.lookup, hk, ih]

/-- C2: tokens are single-use — verifying a key present in the store
succeeds and removes it, so a second verification of the same key fails;
verifying a key that is absent (never issued) fails and leaves the store
unchanged. -/
theorem VerifyOTP_single_use (m : RetentionMap) (k : String) :
    (m.hasKey k = true →
      (VerifyOTP m k).2 = true
      ∧ ((VerifyOTP m k).1).hasKey k = false
      ∧ (VerifyOTP (VerifyOTP m k).1 k).2 = false)
    ∧ (m.hasKey k = false →
      (VerifyOTP m k).2 = false ∧ (VerifyOTP m k).1 = m) := by
  constructor
  · intro h
    have h1 : (VerifyOTP m k).1 = List.filter (fun p => p.1 != k) m := by
      simp [VerifyOTP, h]
    have h2 : ((VerifyOTP m k).1).hasKey k = false := by
      rw [h1]
      simp [RetentionMap.hasKey, lookup_filter_self]
    have hv : ∀ (m' : RetentionMap), m'.hasKey k = false →
        (VerifyOTP m' k).2 = false := by
      intro m' hm'
      simp [VerifyOTP, hm']
    refine ⟨by simp [VerifyOTP, h], h2, hv _ h2⟩
  · intro h
    simp [VerifyOTP, h]

/-- Witness for C2: issue the key `"k1"` into an empty store; the first
verification succeeds, the second fails; verifying the never-issued
`"nope"` fails. -/
theorem VerifyOTP_single_use_witness :
    (RetentionMap.hasKey (NewOTP [] "k1" 0) "k1" = true
      ∧ (VerifyOTP (NewOTP [] "k1" 0) "k1").2 = true
      ∧ (VerifyOTP (VerifyOTP (NewOTP [] "k1" 0) "k1").1 "k1").2 = false)
    ∧ (RetentionMap.hasKey [] "nope" = false
      ∧ (VerifyOTP [] "nope").2 = false) := by
  have h1 : RetentionMap.hasKey (NewOTP [] "k1" 0) "k1" = true := by rfl
  have h2 := (VerifyOTP_single_use (NewOTP [] "k1" 0) "k1").1 h1
  have h3 : RetentionMap.hasKey [] "nope" = false := rfl
  have h4 := (VerifyOTP_single_use [] "nope").2 h3
  exact ⟨⟨h1, h2.1, h2.2.2⟩, h3, h4.1⟩

/-- C3: `serveWS` responds 401 Unauthorized when the `otp` query parameter
is empty (returning with all state untouched, before even consulting the
store) or when token verification fails, and every admission outcome other
than a successful `admitted` leaves the registry's client set unchanged. -/
theorem serveWS_admission (m : Manager) (otp : String) (upgradeOk : Bool)
    (nc : Client) :
    (otp = "" → serveWS m otp upgradeOk nc = (ServeResult.unauthorized, m))
    ∧ ((VerifyOTP m.otps otp).2 = false →
        (serveWS m otp upgradeOk nc).1 = ServeResult.unauthorized)
    ∧ ((serveWS m otp upgradeOk nc).1 = ServeResult.admitted nc
        ∨ ((serveWS m otp upgradeOk nc).2).clients = m.clients) := by
  unfold serveWS
  by_cases h : otp = ""
  · simp [h]
  · cases hv : (VerifyOTP m.otps otp).2
    · simp [h, hv]
    · cases upgradeOk <;> simp [h, hv, addClient]

/-- Witness for C3: the empty `otp` and a never-issued `otp` are both
refused with 401 on the program's initial state. -/
theorem serveWS_admission_witness :
    serveWS NewManager "" true { id := 0 } = (ServeResult.unauthorized, NewManager)
    ∧ (serveWS NewManager "bad" true { id := 0 }).1 = ServeResult.unauthorized :=
  ⟨(serveWS_admission NewManager "" true { id := 0 }).1 rfl,
   (serveWS_admission NewManager "bad" true { id := 0 }).2.1 (by rfl)⟩

/-- C5: a message whose decode into an `Event` fails exits the read loop
at once (exit reason `decodeFail`, remaining script untouched) and the
deferred cleanup removes the client from the registry; a successfully
decoded message is dispatched, its result (error or not) is recorded in
the log, and the loop continues with the rest of the script — in
particular a dispatch error never changes the exit reason. -/
theorem readMessages_error_policy (m : Manager) (c : Client) (e : Event)
    (err : WSErr) (rest : List ReadItem) :
    readLoopAux m c (ReadItem.msg none :: rest) = ([], RExit.decodeFail)
    ∧ (readMessages m c true (ReadItem.msg none :: rest)).2 = RExit.decodeFail
    ∧ ((readMessages m c true (ReadItem.msg none :: rest)).1).clients
        = m.clients.erase c
    ∧ readLoopAux m c (ReadItem.msg (some e) :: rest)
        = (reouteEvent m e c :: (readLoopAux m c rest).1,
           (readLoopAux m c rest).2)
    ∧ (reouteEvent m e c = some err →
        (readLoopAux m c (ReadItem.msg (some e) :: rest)).2
          = (readLoopAux m c rest).2) := by
  refine ⟨rfl, rfl, ?_, rfl, fun _ => rfl⟩
  simp [readMessages, removeClient_fst_clients]

/-- Witness for C5: dispatching the unregistered type `"zz"` returns an
error, and the read loop's exit reason on that script is the same as on
the script without it. -/
theorem readMessages_error_policy_witness :
    reouteEvent NewManager { type := "zz", payload := "" } { id := 2 }
      = some WSErr.eventNotSupported
    ∧ (readLoopAux NewManager { id := 2 }
        (ReadItem.msg (some { type := "zz", payload := "" }) :: [])).2
      = (readLoopAux NewManager { id := 2 } []).2 := by
  have h : reouteEvent NewManager { type := "zz", payload := "" } { id := 2 }
      = some WSErr.eventNotSupported := by rfl
  exact ⟨h, (readMessages_error_policy NewManager { id := 2 }
    { type := "zz", payload := "" } WSErr.eventNotSupported []).2.2.2.2 h⟩

/-- C6: admission puts a client into the registry, and both loops remove
it on exit through the deferred `removeClient`, whatever the script and
whichever path exited the loop: after either loop returns, the client is
no longer in the registry. -/
theorem registry_tracks_lifecycle (m : Manager) (c : Client)
    (deadlineOk : Bool) (ritems : List ReadItem) (witems : List WriteItem) :
    c ∈ (addClient m c).clients
    ∧ ((readMessages m c deadlineOk ritems).1).clients = m.clients.erase c
    ∧ ((WriteMessages m c witems).1).clients = m.clients.erase c
    ∧ decide (c ∈ ((readMessages m c deadlineOk ritems).1).clients) = false
    ∧ decide (c ∈ ((WriteMessages m c witems).1).clients) = false := by
  have hr : ((readMessages m c deadlineOk ritems).1).clients
      = m.clients.erase c := by
    unfold readMessages
    cases deadlineOk <;> simp [removeClient_fst_clients]
  have hw : ((WriteMessages m c witems).1).clients = m.clients.erase c := by
    unfold WriteMessages
    simp [removeClient_fst_clients]
  refine ⟨by simp [addClient], hr, hw, ?_, ?_⟩
  · simp [hr, Finset.not_mem_erase]
  · simp [hw, Finset.not_mem_erase]

/-- C8: in the write loop a failed data-frame write of a marshalled
mailbox envelope is only logged — the loop goes on to consume the rest of
the script — whereas a failed ping write on a ticker fire terminates the
loop at once with `pingFail`, and the deferred cleanup then removes the
client from the registry. -/
theorem writeLoop_error_policy (m : Manager) (c : Client) (e : Event)
    (rest : List WriteItem) :
    writeLoopAux (WriteItem.mailbox e true false :: rest)
      = ((writeLoopAux rest).1 + 1, (writeLoopAux rest).2)
    ∧ writeLoopAux (WriteItem.tick false :: rest) = (0, WExit.pingFail)
    ∧ (WriteMessages m c (WriteItem.tick false :: rest)).2 = WExit.pingFail
    ∧ ((WriteMessages m c (WriteItem.tick false :: rest)).1).clients
      = m.clients.erase c := by
  refine ⟨rfl, rfl, rfl, ?_⟩
  simp [WriteMessages, removeClient_fst_clients]

/-- C9 counterexample: the empty payload is not a JSON object, so no
decode of it into `SendMessageEvent` could succeed — yet the registered
`send_message` handler reports success on it, so the handler performs no
second decode of the payload. -/
theorem sendMessage_no_second_decode :
    jsonObjectLike "" = false
    ∧ reouteEvent NewManager { type := EventSendMessage, payload := "" }
        { id := 0 } = none :=
  ⟨rfl, rfl⟩

/-- C9 amended: the envelope is decoded once at the transport boundary
into `{type, payload}` and a `send_message` envelope is routed to the
registered handler carrying its raw payload; the handler, however, does
not decode the payload a second time — its result is independent of the
payload and is always `nil`. -/
theorem sendMessage_handler_receives_raw (p q : String) (c : Client) :
    NewManager.handlers EventSendMessage = some sendMessageHandler
    ∧ reouteEvent NewManager { type := EventSendMessage, payload := p } c
        = sendMessageHandler { type := EventSendMessage, payload := p } c
    ∧ sendMessageHandler { type := EventSendMessage, payload := p } c
        = sendMessageHandler { type := EventSendMessage, payload := q } c
    ∧ sendMessageHandler { type := EventSendMessage, payload := p } c = none := by
  refine ⟨by rw [NewManager_handlers, if_pos rfl], ?_, rfl, rfl⟩
  exact reouteEvent_eq_handler _ _ _ _ (by rw [NewManager_handlers, if_pos rfl])

/-- C10: in the token-authenticated snapshot, `checkOrigin` returns `true`
for every origin (both switch branches return `true`), so the upgrader
never rejects a connection for a cross-origin request. -/
theorem checkOrigin_always_true (origin : String) :
    checkOrigin origin = true
    ∧ websocketUpgraderRejectsOrigin origin = false := by
  have h : checkOrigin origin = true := by
    unfold checkOrigin
    split <;> rfl
  exact ⟨h, by simp [websocketUpgraderRejectsOrigin, h]⟩

end WsServer
